import Mathlib

/-!
Verification of the ride-price comparison agent (`ride_agent.py`).

The Python module is embedded shallowly:
  * floats carrying prices are modelled as rationals (every literal in the
    source is an exact multiple of 0.25, and the only arithmetic is adding
    the integers 10 and 12, so the rational model is exact);
  * the Python string operations `strip`, `lower` and `replace` used by the
    source are embedded as executable character-list functions (the source
    only ever feeds them ASCII data);
  * network effects (the Nominatim geocoding call) are modelled by an
    oracle `net : String → GeoResponse` describing, per place string, what
    the HTTP layer returns: a network/HTTP failure, or a parsed JSON list
    of candidate coordinates;
  * Python exceptions become an `Except PyErr` result; the `PyErr` type
    distinguishes `RuntimeError`, the `requests` exception family and
    `LookupError`, mirroring the (disjoint) Python exception classes;
  * the Aggregator `get_best_ride` is factored through
    `get_best_ride_core`, which takes the two provider-adapter functions
    as parameters (the seam the spec's stubbing tests use) and records an
    event trace, so that claims about which collaborators were invoked
    can be stated.
-/

/-- Embeds `Provider = Literal["mock", "lyft", "uber"]` from the source. -/
inductive Provider where
  | mock
  | lyft
  | uber
deriving DecidableEq, Repr

/-- Embeds `class LatLng(BaseModel)`: latitude/longitude pair. -/
structure LatLng where
  lat : ℚ
  lng : ℚ
deriving DecidableEq, Repr

/-- Embeds `class RideRequest(BaseModel)`: pickup, dropoff, vehicle_need. -/
structure RideRequest where
  pickup : String
  dropoff : String
  vehicle_need : String
deriving DecidableEq, Repr

/-- Embeds `class Quote(BaseModel)`: one ride offer. -/
structure Quote where
  provider : Provider
  ride_type : String
  price_low : Option ℚ := none
  price_high : Option ℚ := none
  currency : String := "USD"
  eta_minutes : Option ℤ := none
  notes : Option String := none
deriving DecidableEq, Repr

/-- Embeds `class QuoteResult(BaseModel)`: the sole output artifact of the core. -/
structure QuoteResult where
  request : RideRequest
  quotes : List Quote
  cheapest : Option Quote := none
deriving DecidableEq, Repr

/-- The ASCII whitespace characters removed by Python `str.strip()`. -/
def py_whitespace (c : Char) : Bool :=
  c = ' ' || c = '\t' || c = '\n' || c = '\r' || c = '\x0b' || c = '\x0c'

/-- Python `str.strip()`: drop whitespace from both ends. -/
def py_strip (s : String) : String :=
  ⟨((s.data.dropWhile py_whitespace).reverse.dropWhile py_whitespace).reverse⟩

/-- Python `str.lower()` on the ASCII fragment the source uses. -/
def py_lower_char (c : Char) : Char :=
  if 'A' ≤ c ∧ c ≤ 'Z' then Char.ofNat (c.toNat + 32) else c

/-- Python `str.lower()` applied characterwise. -/
def py_lower (s : String) : String :=
  ⟨s.data.map py_lower_char⟩

/-- Worker for Python `str.replace(pat, repl)`: scan left to right,
replacing each leftmost non-overlapping occurrence of `pat` and resuming
after the replaced region. The fuel argument (instantiated with the
string length, an upper bound on the number of scan steps) only makes the
recursion structural; it is never exhausted. -/
def replace_go (pat repl : List Char) : Nat → List Char → List Char
  | _, [] => []
  | 0, l => l
  | fuel + 1, c :: rest =>
    if pat.isPrefixOf (c :: rest) && !pat.isEmpty
    then repl ++ replace_go pat repl fuel (rest.drop (pat.length - 1))
    else c :: replace_go pat repl fuel rest

/-- Python `str.replace` on strings. -/
def py_replace (s pat repl : String) : String :=
  ⟨replace_go pat.data repl.data s.data.length s.data⟩

/-- Key used by `pick_cheapest`: `lambda q: q.price_low` (all quotes it is
applied to have `price_low` present, so the default is never read). -/
def quote_key (q : Quote) : ℚ :=
  q.price_low.getD 0

/-- Python `min(..., key=...)` scans left to right keeping the current
minimum and replaces it only on a strictly smaller key, so the first
minimum wins. -/
def py_min_fold (key : Quote → ℚ) : Quote → List Quote → Quote
  | acc, [] => acc
  | acc, x :: rest => py_min_fold key (if key x < key acc then x else acc) rest

/-- Embeds `pick_cheapest`: filter to priced quotes, take the minimum by
`price_low` (first occurrence on ties), `None` when nothing is priced. -/
def pick_cheapest (quotes : List Quote) : Option Quote :=
  match quotes.filter (fun q => q.price_low.isSome) with
  | [] => none
  | q :: rest => some (py_min_fold quote_key q rest)

/-- The vehicle-need strings triggering the mock XL adjustment. -/
def xl_needs : List String :=
  ["xl", "6 seats", "6-seats", "suv"]

/-- The in-place adjustment `get_mock_quotes` applies to each base quote
when the vehicle need calls for a larger vehicle: rename `(mock)` to
`XL (mock)`, add 10 to `price_low` and 12 to `price_high` when present. -/
def xl_adjust (q : Quote) : Quote :=
  { q with
    ride_type := py_replace q.ride_type "(mock)" "XL (mock)"
    price_low := q.price_low.map (fun p => p + 10)
    price_high := q.price_high.map (fun p => p + 12) }

/-- The first base quote built by `get_mock_quotes`. -/
def mock_uberx : Quote :=
  { provider := .mock, ride_type := "UberX (mock)", price_low := some 22.50,
    price_high := some 24.00, eta_minutes := some 6 }

/-- The second base quote built by `get_mock_quotes`. -/
def mock_lyft : Quote :=
  { provider := .mock, ride_type := "Lyft (mock)", price_low := some 19.75,
    price_high := some 23.00, eta_minutes := some 7 }

/-- Embeds `get_mock_quotes`: two deterministic quotes, adjusted when
`vehicle_need.strip().lower()` is one of the XL triggers. -/
def get_mock_quotes (req : RideRequest) : List Quote :=
  let base : List Quote := [mock_uberx, mock_lyft]
  if py_lower (py_strip req.vehicle_need) ∈ xl_needs then base.map xl_adjust else base

/-- The credential environment of the module (`ride_agent.py` reads these
environment variables once at import; empty string means unset, and
Python truthiness makes empty strings falsy in the adapters). -/
structure Config where
  lyft_client_id : String := ""
  lyft_client_secret : String := ""
  uber_bearer_token : String := ""
  uber_server_token : String := ""
deriving DecidableEq, Repr

/-- Python truthiness of `LYFT_CLIENT_ID and LYFT_CLIENT_SECRET`: both
secrets are non-empty strings. -/
def lyft_configured (cfg : Config) : Prop :=
  cfg.lyft_client_id ≠ "" ∧ cfg.lyft_client_secret ≠ ""

/-- Python truthiness of `UBER_BEARER_TOKEN or UBER_SERVER_TOKEN`: at
least one token is a non-empty string. -/
def uber_configured (cfg : Config) : Prop :=
  cfg.uber_bearer_token ≠ "" ∨ cfg.uber_server_token ≠ ""

instance (cfg : Config) : Decidable (lyft_configured cfg) :=
  inferInstanceAs (Decidable (_ ∧ _))

instance (cfg : Config) : Decidable (uber_configured cfg) :=
  inferInstanceAs (Decidable (_ ∨ _))

/-- Embeds `get_lyft_quotes`: returns `[]` when the two Lyft secrets are not both
set, and (placeholder behavior) still `[]` when they are. -/
def get_lyft_quotes (cfg : Config) (_start _end : LatLng) : List Quote :=
  if ¬ lyft_configured cfg then []
  else []

/-- Embeds `get_uber_quotes`: returns `[]` when neither Uber token is set, and
(placeholder behavior) still `[]` when one is. -/
def get_uber_quotes (cfg : Config) (_start _end : LatLng) : List Quote :=
  if ¬ uber_configured cfg then []
  else []

/-- What the Nominatim HTTP layer yields for one place query: either the
request raised (connection failure, timeout, or `raise_for_status` on an
error status), or a parsed JSON body listing candidate coordinates. -/
inductive GeoResponse where
  | netFail
  | body (results : List LatLng)
deriving DecidableEq, Repr

/-- Python exception values that can cross `get_best_ride`'s boundary.
The three constructors model the disjoint Python classes `RuntimeError`,
the `requests` exception family, and `LookupError` (none of which is a
subclass of another). -/
inductive PyErr where
  | runtimeError (msg : String)
  | requestError (msg : String)
  | lookupError (msg : String)
deriving DecidableEq, Repr

/-- Whether a `PyErr` models an exception that `isinstance(e, LookupError)`
would accept. -/
def PyErr.isLookupError : PyErr → Bool
  | .lookupError _ => true
  | _ => false

/-- Embeds `geocode_nominatim`: issue the place query against the oracle; a
raised request is propagated, an empty candidate list raises
`RuntimeError(f"Could not geocode: '{place}'")`, otherwise the first
candidate is returned. -/
def geocode_nominatim (net : String → GeoResponse) (place : String) :
    Except PyErr LatLng :=
  match net place with
  | .netFail => .error (.requestError ("request failed for " ++ place))
  | .body [] => .error (.runtimeError ("Could not geocode: \x27" ++ place ++ "\x27"))
  | .body (c :: _) => .ok c

/-- Observable calls the Aggregator makes to its collaborators. -/
inductive AgentEvent where
  | geocodeCall (place : String)
  | lyftCall
  | uberCall
deriving DecidableEq, Repr

/-- The fallback decision of `get_best_ride` (source lines 130-132): the
working list is replaced wholesale by the mock quotes exactly when the
fallback is enabled and no quote in it carries a `price_low`. -/
def final_quotes (working : List Quote) (req : RideRequest) (use_mock_if_needed : Bool) :
    List Quote :=
  if use_mock_if_needed && !(working.any fun q => q.price_low.isSome)
  then get_mock_quotes req else working

/-- Embeds `get_best_ride`, with the two provider-adapter functions abstracted as
parameters (the seam a test stubs) and paired with the trace of
collaborator calls made. Steps, in source order: geocode pickup, geocode
dropoff (each failure propagating immediately), concatenate the Lyft then
Uber quotes, replace the list by the mock quotes when the fallback is
enabled and nothing is priced, then select the cheapest. -/
def get_best_ride_core (lyftQ uberQ : LatLng → LatLng → List Quote)
    (net : String → GeoResponse) (req : RideRequest) (use_mock_if_needed : Bool) :
    Except PyErr QuoteResult × List AgentEvent :=
  match geocode_nominatim net req.pickup with
  | .error e => (.error e, [.geocodeCall req.pickup])
  | .ok s =>
    match geocode_nominatim net req.dropoff with
    | .error e => (.error e, [.geocodeCall req.pickup, .geocodeCall req.dropoff])
    | .ok d =>
      let quotes := lyftQ s d ++ uberQ s d
      let final := final_quotes quotes req use_mock_if_needed
      (.ok { request := req, quotes := final, cheapest := pick_cheapest final },
       [.geocodeCall req.pickup, .geocodeCall req.dropoff, .lyftCall, .uberCall])

/-- Embeds `get_best_ride` together with its collaborator-call trace, with the
module-level adapters instantiated from the credential environment. -/
def get_best_ride_run (cfg : Config) (net : String → GeoResponse)
    (req : RideRequest) (use_mock_if_needed : Bool) :
    Except PyErr QuoteResult × List AgentEvent :=
  get_best_ride_core (get_lyft_quotes cfg) (get_uber_quotes cfg) net req use_mock_if_needed

/-- Embeds `get_best_ride(req, use_mock_if_needed)`: the returned `QuoteResult`,
or the propagated exception. -/
def get_best_ride (cfg : Config) (net : String → GeoResponse)
    (req : RideRequest) (use_mock_if_needed : Bool) : Except PyErr QuoteResult :=
  (get_best_ride_run cfg net req use_mock_if_needed).1

/-- The quotes list of a successful `get_best_ride` call, `none` when the
call raised. -/
def quotes_of : Except PyErr QuoteResult → Option (List Quote)
  | .ok r => some r.quotes
  | .error _ => none

/-- Value of `mock_uberx` after the XL adjustment. -/
def mock_uberx_xl : Quote :=
  { provider := .mock, ride_type := "UberX XL (mock)", price_low := some 32.50,
    price_high := some 36.00, eta_minutes := some 6 }

/-- Value of `mock_lyft` after the XL adjustment. -/
def mock_lyft_xl : Quote :=
  { provider := .mock, ride_type := "Lyft XL (mock)", price_low := some 29.75,
    price_high := some 35.00, eta_minutes := some 7 }

/-- The end-to-end scenario request of the spec (vehicle need `cheapest`). -/
def ohare_req : RideRequest :=
  { pickup := "Chicago O\x27Hare Airport", dropoff := "Navy Pier, Chicago",
    vehicle_need := "cheapest" }

/-- The same scenario request with vehicle need `XL`. -/
def ohare_req_xl : RideRequest :=
  { pickup := "Chicago O\x27Hare Airport", dropoff := "Navy Pier, Chicago",
    vehicle_need := "XL" }

/-- A geocoding oracle under which every place resolves to one candidate. -/
def chicago_net : String → GeoResponse :=
  fun _ => .body [{ lat := 41, lng := -87 }]

/-- A geocoding oracle under which every query returns an empty match
list (HTTP 200, JSON `[]`). -/
def empty_net : String → GeoResponse :=
  fun _ => .body []

/-- A small generic request used for concrete witnesses. -/
def req_generic : RideRequest :=
  { pickup := "A", dropoff := "B", vehicle_need := "cheapest" }

/-- The priced quote the spec's fallback-gating test stubs an adapter to
return (`priceLow=15.00`). -/
def stub_quote : Quote :=
  { provider := .lyft, ride_type := "Lyft Standard", price_low := some 15.00 }

/-- A stubbed Lyft adapter returning the single priced quote. -/
def stub_lyft : LatLng → LatLng → List Quote :=
  fun _ _ => [stub_quote]

/-- A stubbed adapter returning no quotes. -/
def stub_empty : LatLng → LatLng → List Quote :=
  fun _ _ => []

/-- A request whose vehicle need is an XL trigger only after trimming and
lower-casing. -/
def req_suv : RideRequest :=
  { pickup := "A", dropoff := "B", vehicle_need := " SUV " }

/-- The expected result of the plain O'Hare scenario. -/
def ohare_result : QuoteResult :=
  { request := ohare_req, quotes := [mock_uberx, mock_lyft], cheapest := some mock_lyft }

/-- The expected result of the XL O'Hare scenario. -/
def ohare_result_xl : QuoteResult :=
  { request := ohare_req_xl, quotes := [mock_uberx_xl, mock_lyft_xl],
    cheapest := some mock_lyft_xl }

/-- The folded minimum is a lower bound for the seed and for every
element of the scanned list. -/
theorem py_min_fold_le (key : Quote → ℚ) :
    ∀ (l : List Quote) (acc : Quote),
      key (py_min_fold key acc l) ≤ key acc ∧
      ∀ x ∈ l, key (py_min_fold key acc l) ≤ key x := by
  intro l
  induction l with
  | nil => exact fun acc => ⟨le_refl _, by simp⟩
  | cons x rest ih =>
    intro acc
    rw [py_min_fold]
    by_cases hx : key x < key acc
    · rw [if_pos hx]
      rcases ih x with ⟨h1, h2⟩
      refine ⟨le_of_lt (lt_of_le_of_lt h1 hx), ?_⟩
      intro y hy
      rcases List.mem_cons.mp hy with rfl | hy'
      · exact h1
      · exact h2 y hy'
    · rw [if_neg hx]
      push_neg at hx
      rcases ih acc with ⟨h1, h2⟩
      refine ⟨h1, ?_⟩
      intro y hy
      rcases List.mem_cons.mp hy with rfl | hy'
      · exact le_trans h1 hx
      · exact h2 y hy'

/-- The folded minimum splits its input: everything strictly before the
chosen element has a strictly larger key (the first minimum wins). -/
theorem py_min_fold_split (key : Quote → ℚ) :
    ∀ (l : List Quote) (acc : Quote),
      ∃ l₁ l₂, acc :: l = l₁ ++ py_min_fold key acc l :: l₂ ∧
        ∀ x ∈ l₁, key (py_min_fold key acc l) < key x := by
  intro l
  induction l with
  | nil => exact fun acc => ⟨[], [], rfl, by simp⟩
  | cons x rest ih =>
    intro acc
    rw [py_min_fold]
    by_cases hx : key x < key acc
    · rw [if_pos hx]
      rcases ih x with ⟨l₁, l₂, hsplit, hstrict⟩
      refine ⟨acc :: l₁, l₂, ?_, ?_⟩
      · rw [List.cons_append, ← hsplit]
      · intro y hy
        rcases List.mem_cons.mp hy with rfl | hy'
        · exact lt_of_le_of_lt (py_min_fold_le key rest x).1 hx
        · exact hstrict y hy'
    · rw [if_neg hx]
      push_neg at hx
      rcases ih acc with ⟨l₁, l₂, hsplit, hstrict⟩
      cases l₁ with
      | nil =>
        simp only [List.nil_append] at hsplit
        refine ⟨[], x :: rest, ?_, by simp⟩
        rw [List.nil_append, ← (List.cons.injEq _ _ _ _).mp hsplit |>.1]
      | cons a l₁' =>
        simp only [List.cons_append, List.cons.injEq] at hsplit
        obtain ⟨rfl, hrest⟩ := hsplit
        refine ⟨acc :: x :: l₁', l₂, ?_, ?_⟩
        · simp only [List.cons_append, List.cons.injEq, true_and]
          exact hrest
        · intro y hy
          have hacc : key (py_min_fold key acc rest) < key acc :=
            hstrict acc (List.mem_cons_self _ _)
          rcases List.mem_cons.mp hy with rfl | hy'
          · exact hacc
          · rcases List.mem_cons.mp hy' with rfl | hy''
            · exact lt_of_lt_of_le hacc hx
            · exact hstrict y (List.mem_cons_of_mem _ hy'')

/-- Both branches of the Lyft adapter return the empty list. -/
theorem lyft_quotes_empty (cfg : Config) (s d : LatLng) :
    get_lyft_quotes cfg s d = [] := by
  unfold get_lyft_quotes
  split <;> rfl

/-- Both branches of the Uber adapter return the empty list. -/
theorem uber_quotes_empty (cfg : Config) (s d : LatLng) :
    get_uber_quotes cfg s d = [] := by
  unfold get_uber_quotes
  split <;> rfl

/-- On a non-XL vehicle need the mock quotes are the unadjusted base. -/
theorem mock_eval_plain (req : RideRequest)
    (h : py_lower (py_strip req.vehicle_need) ∉ xl_needs) :
    get_mock_quotes req = [mock_uberx, mock_lyft] := by
  simp only [get_mock_quotes]
  rw [if_neg h]

/-- On an XL vehicle need the mock quotes are the adjusted base. -/
theorem mock_eval_xl (req : RideRequest)
    (h : py_lower (py_strip req.vehicle_need) ∈ xl_needs) :
    get_mock_quotes req = [mock_uberx_xl, mock_lyft_xl] := by
  simp only [get_mock_quotes]
  rw [if_pos h]
  norm_num [xl_adjust, mock_uberx, mock_lyft, mock_uberx_xl, mock_lyft_xl, Quote.mk.injEq]
  decide

/-- The cheapest of the unadjusted mock pair is the Lyft quote. -/
theorem pick_plain : pick_cheapest [mock_uberx, mock_lyft] = some mock_lyft := by
  norm_num [pick_cheapest, py_min_fold, quote_key, mock_uberx, mock_lyft]

/-- The cheapest of the adjusted mock pair is the Lyft quote. -/
theorem pick_xl : pick_cheapest [mock_uberx_xl, mock_lyft_xl] = some mock_lyft_xl := by
  norm_num [pick_cheapest, py_min_fold, quote_key, mock_uberx_xl, mock_lyft_xl]

/-- Every error `geocode_nominatim` can raise models a `RuntimeError` or
a `requests` exception, never a `LookupError`. -/
theorem geocode_error_kind (net : String → GeoResponse) (place : String) (e : PyErr)
    (h : geocode_nominatim net place = .error e) : e.isLookupError = false := by
  unfold geocode_nominatim at h
  rcases hn : net place with _ | results
  · rw [hn] at h
    cases h
    rfl
  · rw [hn] at h
    cases results with
    | nil =>
      cases h
      rfl
    | cons c cs => cases h

/-- Unfolding of the Aggregator when both geocoding calls succeed. -/
theorem core_ok (lyftQ uberQ : LatLng → LatLng → List Quote)
    (net : String → GeoResponse) (req : RideRequest) (u : Bool) (s d : LatLng)
    (hs : geocode_nominatim net req.pickup = .ok s)
    (hd : geocode_nominatim net req.dropoff = .ok d) :
    get_best_ride_core lyftQ uberQ net req u =
      (.ok { request := req, quotes := final_quotes (lyftQ s d ++ uberQ s d) req u,
             cheapest := pick_cheapest (final_quotes (lyftQ s d ++ uberQ s d) req u) },
       [.geocodeCall req.pickup, .geocodeCall req.dropoff, .lyftCall, .uberCall]) := by
  unfold get_best_ride_core
  rw [hs, hd]

/-- When the fallback is enabled and nothing in the working list is
priced, the working list is replaced by the mock quotes. -/
theorem final_quotes_mock (working : List Quote) (req : RideRequest)
    (h : ∀ q ∈ working, q.price_low = none) :
    final_quotes working req true = get_mock_quotes req := by
  unfold final_quotes
  rw [if_pos]
  simp only [Bool.true_and, Bool.not_eq_true', List.any_eq_false]
  intro q hq
  simp [h q hq]

/-- When the fallback is disabled, or some quote in the working list is
priced, the working list is kept. -/
theorem final_quotes_keep (working : List Quote) (req : RideRequest) (u : Bool)
    (h : u = false ∨ ∃ q ∈ working, q.price_low.isSome) :
    final_quotes working req u = working := by
  unfold final_quotes
  rcases h with rfl | ⟨q, hq, hsome⟩
  · rw [if_neg]
    simp
  · rw [if_neg]
    simp only [Bool.and_eq_true, Bool.not_eq_true', List.any_eq_false, not_and, not_forall]
    intro _
    exact ⟨q, hq, by simp [hsome]⟩

/-- With both adapters unconfigured and both geocoding calls succeeding,
the fallback-enabled Aggregator returns exactly the mock quotes. -/
theorem unconfigured_mock (cfg : Config) (net : String → GeoResponse)
    (req : RideRequest) (s d : LatLng)
    (_hl : ¬ lyft_configured cfg) (_hu : ¬ uber_configured cfg)
    (hs : geocode_nominatim net req.pickup = .ok s)
    (hd : geocode_nominatim net req.dropoff = .ok d) :
    quotes_of (get_best_ride cfg net req true) = some (get_mock_quotes req) := by
  show quotes_of
    (get_best_ride_core (get_lyft_quotes cfg) (get_uber_quotes cfg) net req true).1 = _
  rw [core_ok _ _ net req true s d hs hd, lyft_quotes_empty, uber_quotes_empty]
  rw [show ([] ++ [] : List Quote) = [] from rfl]
  rw [final_quotes_mock [] req (by simp)]
  rfl

/-- Concrete evaluation of the plain O'Hare scenario. -/
theorem scenario_plain_eval :
    get_best_ride {} chicago_net ohare_req true = .ok ohare_result := by
  show (get_best_ride_core (get_lyft_quotes {}) (get_uber_quotes {})
    chicago_net ohare_req true).1 = _
  rw [core_ok _ _ chicago_net ohare_req true { lat := 41, lng := -87 }
    { lat := 41, lng := -87 } rfl rfl, lyft_quotes_empty, uber_quotes_empty]
  rw [show ([] ++ [] : List Quote) = [] from rfl]
  rw [final_quotes_mock [] _ (by simp), mock_eval_plain _ (by decide), pick_plain]
  rfl

/-- Concrete evaluation of the XL O'Hare scenario. -/
theorem scenario_xl_eval :
    get_best_ride {} chicago_net ohare_req_xl true = .ok ohare_result_xl := by
  show (get_best_ride_core (get_lyft_quotes {}) (get_uber_quotes {})
    chicago_net ohare_req_xl true).1 = _
  rw [core_ok _ _ chicago_net ohare_req_xl true { lat := 41, lng := -87 }
    { lat := 41, lng := -87 } rfl rfl, lyft_quotes_empty, uber_quotes_empty]
  rw [show ([] ++ [] : List Quote) = [] from rfl]
  rw [final_quotes_mock [] _ (by simp), mock_eval_xl _ (by decide), pick_xl]
  rfl

/-- C1: for every quote list, `pick_cheapest` returns `none` iff no quote
has `price_low` present; otherwise the chosen quote is an element of the
list, its `price_low` is present and minimal among priced quotes, and on
ties the earliest priced quote in list order wins: the priced sublist
splits as `l₁ ++ chosen :: l₂` with every quote of `l₁` strictly more
expensive. -/
theorem claim_pick_cheapest (qs : List Quote) :
    (pick_cheapest qs = none ↔ ∀ q ∈ qs, q.price_low = none) ∧
    ∀ c, pick_cheapest qs = some c →
      c ∈ qs ∧ c.price_low = some (quote_key c) ∧
      (∀ q ∈ qs, ∀ v, q.price_low = some v → quote_key c ≤ v) ∧
      ∃ l₁ l₂, qs.filter (fun q => q.price_low.isSome) = l₁ ++ c :: l₂ ∧
        ∀ q ∈ l₁, quote_key c < quote_key q := by
  have hfilter : qs.filter (fun q => q.price_low.isSome) = [] ↔
      ∀ q ∈ qs, q.price_low = none := by
    rw [List.filter_eq_nil_iff]
    constructor
    · intro h q hq
      have := h q hq
      simpa using this
    · intro h q hq
      simp [h q hq]
  constructor
  · unfold pick_cheapest
    rcases hf : qs.filter (fun q => q.price_low.isSome) with _ | ⟨q, rest⟩
    · rw [hf]
      exact ⟨fun _ => hfilter.mp hf, fun _ => rfl⟩
    · rw [hf]
      constructor
      · intro h
        simp at h
      · intro hall
        have hnil := hfilter.mpr hall
        rw [hf] at hnil
        cases hnil
  · intro c hc
    unfold pick_cheapest at hc
    rcases hf : qs.filter (fun q => q.price_low.isSome) with _ | ⟨q, rest⟩
    · rw [hf] at hc
      simp at hc
    · rw [hf] at hc
      have hcm : py_min_fold quote_key q rest = c := by
        simpa using hc
      obtain ⟨l₁, l₂, hsplit, hstrict⟩ := py_min_fold_split quote_key rest q
      rw [hcm] at hsplit hstrict
      have hcf : c ∈ qs.filter (fun q => q.price_low.isSome) := by
        rw [hf, hsplit]
        exact List.mem_append.mpr (Or.inr (List.mem_cons_self _ _))
      have hcq := List.mem_filter.mp hcf
      have hsome : c.price_low.isSome := by simpa using hcq.2
      obtain ⟨v, hv⟩ := Option.isSome_iff_exists.mp hsome
      have hmin : ∀ x ∈ q :: rest, quote_key c ≤ quote_key x := by
        intro x hx
        rcases List.mem_cons.mp hx with rfl | hx'
        · rw [← hcm]
          exact (py_min_fold_le quote_key rest x).1
        · rw [← hcm]
          exact (py_min_fold_le quote_key rest q).2 x hx'
      refine ⟨hcq.1, ?_, ?_, l₁, l₂, by rw [hf, hsplit], hstrict⟩
      · rw [hv]
        simp [quote_key, hv]
      · intro p hp w hw
        have hpf : p ∈ qs.filter (fun q => q.price_low.isSome) :=
          List.mem_filter.mpr ⟨hp, by simp [hw]⟩
        rw [hf] at hpf
        have hle := hmin p hpf
        have hpw : quote_key p = w := by simp [quote_key, hw]
        rw [← hpw]
        exact hle

/-- C1 witness: at the concrete mock pair the selected quote is the Lyft
quote, a member of the list with its price present. -/
theorem claim_pick_cheapest_witness :
    mock_lyft ∈ [mock_uberx, mock_lyft] ∧
    mock_lyft.price_low = some (quote_key mock_lyft) :=
  And.intro
    ((claim_pick_cheapest [mock_uberx, mock_lyft]).2 mock_lyft pick_plain).1
    ((claim_pick_cheapest [mock_uberx, mock_lyft]).2 mock_lyft pick_plain).2.1

/-- C4: for every request whose trimmed, lower-cased vehicle need is not
an XL trigger, `get_mock_quotes` returns exactly the two stated quotes in
order (and, being a pure total function, performs no I/O and never
fails). -/
theorem claim_mock_quotes_base (req : RideRequest)
    (h : py_lower (py_strip req.vehicle_need) ∉ xl_needs) :
    get_mock_quotes req =
      [⟨Provider.mock, "UberX (mock)", some 22.50, some 24.00, "USD", some 6, none⟩,
       ⟨Provider.mock, "Lyft (mock)", some 19.75, some 23.00, "USD", some 7, none⟩] :=
  mock_eval_plain req h

/-- C4 witness at a request with vehicle need `cheapest`. -/
theorem claim_mock_quotes_base_witness :
    py_lower (py_strip req_generic.vehicle_need) ∉ xl_needs ∧
    get_mock_quotes req_generic =
      [⟨Provider.mock, "UberX (mock)", some 22.50, some 24.00, "USD", some 6, none⟩,
       ⟨Provider.mock, "Lyft (mock)", some 19.75, some 23.00, "USD", some 7, none⟩] :=
  And.intro (by decide) (claim_mock_quotes_base req_generic (by decide))

/-- C5: when the trimmed, lower-cased vehicle need is an XL trigger, both
mock quotes are adjusted before return — `(mock)` in the ride type
becomes `XL (mock)`, `price_low` is exactly 10.00 higher and `price_high`
exactly 12.00 higher than the base values — and for every other vehicle
need the two base quotes are returned unadjusted. -/
theorem claim_mock_quotes_adjust (req : RideRequest) :
    (py_lower (py_strip req.vehicle_need) ∈ xl_needs →
      get_mock_quotes req =
        [⟨Provider.mock, "UberX XL (mock)", some (22.50 + 10), some (24.00 + 12),
          "USD", some 6, none⟩,
         ⟨Provider.mock, "Lyft XL (mock)", some (19.75 + 10), some (23.00 + 12),
          "USD", some 7, none⟩]) ∧
    (py_lower (py_strip req.vehicle_need) ∉ xl_needs →
      get_mock_quotes req = [mock_uberx, mock_lyft]) := by
  constructor
  · intro h
    rw [mock_eval_xl req h]
    norm_num [mock_uberx_xl, mock_lyft_xl, Quote.mk.injEq]
  · exact mock_eval_plain req

/-- C5 witness at a request with vehicle need `" SUV "` (trim- and
case-insensitive trigger). -/
theorem claim_mock_quotes_adjust_witness :
    py_lower (py_strip req_suv.vehicle_need) ∈ xl_needs ∧
    get_mock_quotes req_suv =
      [⟨Provider.mock, "UberX XL (mock)", some (22.50 + 10), some (24.00 + 12),
        "USD", some 6, none⟩,
       ⟨Provider.mock, "Lyft XL (mock)", some (19.75 + 10), some (23.00 + 12),
        "USD", some 7, none⟩] :=
  And.intro (by decide) ((claim_mock_quotes_adjust req_suv).1 (by decide))

/-- C7: for every credential environment and coordinate pair, each
provider adapter returns the empty quote sequence — both when its
credentials are missing and under the placeholder "configured but still
empty" behavior — and, being a pure total function, raises no error. -/
theorem claim_adapters_empty (cfg : Config) (s d : LatLng) :
    get_lyft_quotes cfg s d = [] ∧ get_uber_quotes cfg s d = [] :=
  And.intro (lyft_quotes_empty cfg s d) (uber_quotes_empty cfg s d)

/-- C9: over the mock quotes, `pick_cheapest` always selects the second
(Lyft-labelled) quote, whatever the vehicle need: the XL adjustment adds
the same 10.00 to both low prices and so preserves the minimum. -/
theorem claim_mock_cheapest_second (req : RideRequest) :
    pick_cheapest (get_mock_quotes req) = (get_mock_quotes req).get? 1 ∧
    pick_cheapest (get_mock_quotes req) =
      some (if py_lower (py_strip req.vehicle_need) ∈ xl_needs
            then mock_lyft_xl else mock_lyft) := by
  by_cases h : py_lower (py_strip req.vehicle_need) ∈ xl_needs
  · rw [mock_eval_xl req h, if_pos h]
    exact ⟨by rw [pick_xl]; rfl, pick_xl⟩
  · rw [mock_eval_plain req h, if_neg h]
    exact ⟨by rw [pick_plain]; rfl, pick_plain⟩

/-- C2: with both geocoding calls succeeding, the working list assembled
from the (possibly stubbed) adapters is replaced wholesale by the mock
quotes when the fallback is enabled and no working quote carries a
`price_low`, and kept otherwise; in particular a single priced adapter
quote suppresses the mock fallback even with the fallback enabled. -/
theorem claim_fallback_gating (lyftQ uberQ : LatLng → LatLng → List Quote)
    (net : String → GeoResponse) (req : RideRequest) (u : Bool) (s d : LatLng)
    (hs : geocode_nominatim net req.pickup = .ok s)
    (hd : geocode_nominatim net req.dropoff = .ok d) :
    (u = true → (∀ q ∈ lyftQ s d ++ uberQ s d, q.price_low = none) →
      quotes_of (get_best_ride_core lyftQ uberQ net req u).1 =
        some (get_mock_quotes req)) ∧
    (u = false ∨ (∃ q ∈ lyftQ s d ++ uberQ s d, q.price_low.isSome) →
      quotes_of (get_best_ride_core lyftQ uberQ net req u).1 =
        some (lyftQ s d ++ uberQ s d)) := by
  rw [core_ok lyftQ uberQ net req u s d hs hd]
  constructor
  · rintro rfl hall
    rw [final_quotes_mock _ _ hall]
    rfl
  · intro h
    rw [final_quotes_keep _ _ _ h]
    rfl

/-- C2 witness: a Lyft adapter stubbed to one `priceLow=15.00` quote
suppresses the fallback even with `useMockIfNeeded=true`. -/
theorem claim_fallback_gating_witness :
    quotes_of (get_best_ride_core stub_lyft stub_empty chicago_net req_generic true).1 =
      some [stub_quote] := by
  have h := (claim_fallback_gating stub_lyft stub_empty chicago_net req_generic true
    { lat := 41, lng := -87 } { lat := 41, lng := -87 } rfl rfl).2
  have h2 := h (Or.inr ⟨stub_quote, by simp [stub_lyft, stub_empty], by simp [stub_quote]⟩)
  simpa [stub_lyft, stub_empty] using h2

/-- C3 counterexample: with an empty geocoding match list for the pickup
the aggregation fails, but the surfaced error models `RuntimeError`, not
`LookupError` as the claim states. -/
theorem claim_geocode_lookup_counterexample :
    get_best_ride {} empty_net req_generic true =
      .error (.runtimeError ("Could not geocode: \x27A\x27")) ∧
    PyErr.isLookupError (.runtimeError ("Could not geocode: \x27A\x27")) = false :=
  And.intro rfl rfl

/-- C3 amended: when geocoding of the pickup or the dropoff fails (empty
match list, or a failed or timed-out network call) the failure surfaces
to the caller of `get_best_ride` as the raised exception — a
`RuntimeError` or a `requests` error, neither of which is a
`LookupError` — no provider adapter is called, and no quotes are
produced. -/
theorem claim_geocode_failfast (cfg : Config) (net : String → GeoResponse)
    (req : RideRequest) (u : Bool) (e : PyErr)
    (h : geocode_nominatim net req.pickup = .error e ∨
         ((∃ s, geocode_nominatim net req.pickup = .ok s) ∧
          geocode_nominatim net req.dropoff = .error e)) :
    get_best_ride cfg net req u = .error e ∧
    e.isLookupError = false ∧
    AgentEvent.lyftCall ∉ (get_best_ride_run cfg net req u).2 ∧
    AgentEvent.uberCall ∉ (get_best_ride_run cfg net req u).2 := by
  rcases h with hp | ⟨⟨s, hs⟩, hd⟩
  · have hrun : get_best_ride_run cfg net req u =
        (.error e, [.geocodeCall req.pickup]) := by
      unfold get_best_ride_run get_best_ride_core
      rw [hp]
    refine ⟨?_, geocode_error_kind net req.pickup e hp, ?_, ?_⟩
    · unfold get_best_ride
      rw [hrun]
    · rw [hrun]
      simp
    · rw [hrun]
      simp
  · have hrun : get_best_ride_run cfg net req u =
        (.error e, [.geocodeCall req.pickup, .geocodeCall req.dropoff]) := by
      unfold get_best_ride_run get_best_ride_core
      rw [hs, hd]
    refine ⟨?_, geocode_error_kind net req.dropoff e hd, ?_, ?_⟩
    · unfold get_best_ride
      rw [hrun]
    · rw [hrun]
      simp
    · rw [hrun]
      simp

/-- C3 amended witness: concrete run with an empty match list for the
pickup place. -/
theorem claim_geocode_failfast_witness :
    get_best_ride {} empty_net req_generic false =
      .error (.runtimeError ("Could not geocode: \x27A\x27")) ∧
    PyErr.isLookupError (.runtimeError ("Could not geocode: \x27A\x27")) = false ∧
    AgentEvent.lyftCall ∉ (get_best_ride_run {} empty_net req_generic false).2 ∧
    AgentEvent.uberCall ∉ (get_best_ride_run {} empty_net req_generic false).2 :=
  claim_geocode_failfast {} empty_net req_generic false
    (.runtimeError ("Could not geocode: \x27A\x27")) (Or.inl rfl)

/-- C6: with both adapters unconfigured and both geocoding calls
succeeding, `get_best_ride` with the fallback enabled returns exactly the
mock quotes; concretely, the O'Hare → Navy Pier scenario yields the two
base mock quotes with the 19.75 Lyft quote as cheapest, and with vehicle
need `XL` the adjusted quotes with the 29.75 Lyft quote as cheapest. -/
theorem claim_best_ride_scenarios :
    (∀ (cfg : Config) (net : String → GeoResponse) (req : RideRequest) (s d : LatLng),
      ¬ lyft_configured cfg → ¬ uber_configured cfg →
      geocode_nominatim net req.pickup = .ok s →
      geocode_nominatim net req.dropoff = .ok d →
      quotes_of (get_best_ride cfg net req true) = some (get_mock_quotes req)) ∧
    get_best_ride {} chicago_net ohare_req true = .ok ohare_result ∧
    get_best_ride {} chicago_net ohare_req_xl true = .ok ohare_result_xl :=
  ⟨fun cfg net req s d hl hu hs hd => unconfigured_mock cfg net req s d hl hu hs hd,
   scenario_plain_eval, scenario_xl_eval⟩

/-- C6 witness: the unconfigured-adapter statement applied at a concrete
environment, oracle and request. -/
theorem claim_best_ride_scenarios_witness :
    quotes_of (get_best_ride {} chicago_net req_generic true) =
      some (get_mock_quotes req_generic) :=
  claim_best_ride_scenarios.1 {} chicago_net req_generic
    { lat := 41, lng := -87 } { lat := 41, lng := -87 }
    (by decide) (by decide) rfl rfl

/-- C8: whenever `get_best_ride` returns a result, the result's `request`
field is the input request unchanged. -/
theorem claim_request_preserved (cfg : Config) (net : String → GeoResponse)
    (req : RideRequest) (u : Bool) (r : QuoteResult)
    (h : get_best_ride cfg net req u = .ok r) : r.request = req := by
  rcases hp : geocode_nominatim net req.pickup with e | s
  · have hrr : get_best_ride cfg net req u = .error e := by
      unfold get_best_ride get_best_ride_run get_best_ride_core
      rw [hp]
    rw [hrr] at h
    simp at h
  · rcases hd : geocode_nominatim net req.dropoff with e | d
    · have hrr : get_best_ride cfg net req u = .error e := by
        unfold get_best_ride get_best_ride_run get_best_ride_core
        rw [hp, hd]
      rw [hrr] at h
      simp at h
    · have hrr : get_best_ride cfg net req u = .ok (QuoteResult.mk req
          (final_quotes (get_lyft_quotes cfg s d ++ get_uber_quotes cfg s d) req u)
          (pick_cheapest
            (final_quotes (get_lyft_quotes cfg s d ++ get_uber_quotes cfg s d) req u))) := by
        show (get_best_ride_core (get_lyft_quotes cfg) (get_uber_quotes cfg) net req u).1 = _
        rw [core_ok _ _ net req u s d hp hd]
      rw [hrr, Except.ok.injEq] at h
      rw [← h]

/-- C8 witness at the concrete plain scenario. -/
theorem claim_request_preserved_witness : ohare_result.request = ohare_req :=
  claim_request_preserved {} chicago_net ohare_req true ohare_result scenario_plain_eval

/-- C10: with both geocoding calls succeeding and the mock fallback
disabled, `get_best_ride` returns a result with an empty quote list and
no cheapest, both adapters being empty placeholders. -/
theorem claim_no_mock_empty (cfg : Config) (net : String → GeoResponse)
    (req : RideRequest) (s d : LatLng)
    (hs : geocode_nominatim net req.pickup = .ok s)
    (hd : geocode_nominatim net req.dropoff = .ok d) :
    get_best_ride cfg net req false = .ok (QuoteResult.mk req [] none) := by
  show (get_best_ride_core (get_lyft_quotes cfg) (get_uber_quotes cfg) net req false).1 = _
  rw [core_ok _ _ net req false s d hs hd, lyft_quotes_empty, uber_quotes_empty]
  rfl

/-- C10 witness at a concrete environment, oracle and request. -/
theorem claim_no_mock_empty_witness :
    get_best_ride {} chicago_net req_generic false =
      .ok (QuoteResult.mk req_generic [] none) :=
  claim_no_mock_empty {} chicago_net req_generic
    { lat := 41, lng := -87 } { lat := 41, lng := -87 } rfl rfl
